import Mathlib

/-!
Shallow embedding of the statistical core of the A/B-testing repository
(`src/stats_utils.py`, class `StatsUtils`) and proofs about it.

Modelling conventions:
* A pandas DataFrame row, projected to its `group_col` and `outcome_col`
  columns, is a `Record` (group label, numeric outcome).  The DataFrame is an
  ordered list of such records.
* Exact float arithmetic is modelled over `ℚ` (the aggregations, means and
  variances the code performs are exact) and `ℝ` where square roots and the
  external scipy special functions enter.
* `scipy.stats.norm.ppf` and the Student-t survival function used inside
  `scipy.stats.ttest_ind` are external library calls; they are abstracted as
  function parameters `ppf : ℝ → ℝ` and `sf : ℝ → ℝ → ℝ` (argument order:
  value, degrees of freedom).
* IEEE-754 non-finite values that `ttest_ind` can produce are modelled by the
  explicit type `FV` (finite / +inf / -inf / NaN).  The Python code has no
  `raise` statement and scipy returns NaN rather than raising on degenerate
  input, so every operation is a total function.
-/

namespace ABTest

/-- One DataFrame row projected to the group column and the outcome column. -/
structure Record where
  group : String
  outcome : ℚ
deriving DecidableEq, Repr

/-- The DataFrame: an ordered list of records. -/
abbrev RecordSet := List Record

/-- `data[data[group_col] == g][outcome_col]`: the outcome column of the rows
whose group label is `g`, in row order. -/
def groupOutcomes (data : RecordSet) (g : String) : List ℚ :=
  (data.filter (fun r => r.group == g)).map Record.outcome

/-- The distinct group labels in pandas `groupby` output order (pandas sorts
the group keys). -/
def groupKeys (data : RecordSet) : List String :=
  List.insertionSort (· ≤ ·) (data.map Record.group).dedup

/-- `Series.mean()`: sum divided by length (`0/0 = 0` never arises for keys
produced by `groupby`, whose partitions are nonempty). -/
def mean (xs : List ℚ) : ℚ :=
  xs.sum / (xs.length : ℚ)

/-- `StatsUtils.calculate_conversion_rate`:
`data.groupby(group_col)[outcome_col].mean()`, one `(group, conversion_rate)`
row per distinct group label. -/
def calculate_conversion_rate (data : RecordSet) : List (String × ℚ) :=
  (groupKeys data).map (fun g => (g, mean (groupOutcomes data g)))

/-- One row of the DataFrame returned by `calculate_confidence_interval`. -/
structure CIRow where
  group : String
  sample_size : ℕ
  successes : ℚ
  conversion_rate : ℚ
  lower_bound : ℝ
  upper_bound : ℝ

/-- The proportion `successes / trials` of a group's outcome column:
`data.groupby(group_col)[outcome_col].sum()` over
`data.groupby(group_col)[outcome_col].count()`. -/
def proportion (data : RecordSet) (g : String) : ℚ :=
  (groupOutcomes data g).sum / ((groupOutcomes data g).length : ℚ)

/-- One group's row of `StatsUtils.calculate_confidence_interval`:
`successes = sum`, `trials (sample_size) = count`, `p = successes / trials`,
`se = (p * (1 - p) / trials) ** 0.5`, `z = ppf((1 + confidence) / 2)`,
`margin = se * z`, `lower = p - margin`, `upper = p + margin`.  `ppf`
abstracts `scipy.stats.norm.ppf`.  (`x ** 0.5` agrees with `Real.sqrt` on the
nonnegative arguments produced by boolean outcome columns.) -/
noncomputable def ciRow (ppf : ℝ → ℝ) (data : RecordSet) (confidence : ℝ)
    (g : String) : CIRow where
  group := g
  sample_size := (groupOutcomes data g).length
  successes := (groupOutcomes data g).sum
  conversion_rate := proportion data g
  lower_bound := (proportion data g : ℝ) -
    Real.sqrt ((proportion data g * (1 - proportion data g) /
      ((groupOutcomes data g).length : ℚ) : ℚ) : ℝ) * ppf ((1 + confidence) / 2)
  upper_bound := (proportion data g : ℝ) +
    Real.sqrt ((proportion data g * (1 - proportion data g) /
      ((groupOutcomes data g).length : ℚ) : ℚ) : ℝ) * ppf ((1 + confidence) / 2)

/-- `StatsUtils.calculate_confidence_interval`: one `ciRow` per distinct
group label. -/
noncomputable def calculate_confidence_interval (ppf : ℝ → ℝ) (data : RecordSet)
    (confidence : ℝ) : List CIRow :=
  (groupKeys data).map (ciRow ppf data confidence)

/-- The row of a confidence-interval result for the group `g` (the DataFrame
is keyed by the group column). -/
def ciRowFor (rows : List CIRow) (g : String) : Option CIRow :=
  rows.find? (fun row => row.group == g)

/-- Count of records whose outcome is `1` (i.e. `True`): the "successes" of a
boolean outcome column. -/
def successCount (xs : List ℚ) : ℕ :=
  (xs.filter (fun x => x == 1)).length

/-- The outcome column is boolean: every value is `0` or `1`.  (An abbrev so
that decidability is inferred on concrete data.) -/
abbrev BoolOutcomes (xs : List ℚ) : Prop :=
  ∀ x ∈ xs, x = 0 ∨ x = 1

/-- An IEEE-754 double as `scipy.stats.ttest_ind` produces it: a finite real,
an infinity, or NaN. -/
inductive FV where
  | num (x : ℝ)
  | pinf
  | ninf
  | nan

namespace FV

/-- Float negation. -/
def neg : FV → FV
  | num x => num (-x)
  | pinf => ninf
  | ninf => pinf
  | nan => nan

/-- The Python comparison `v < alpha` for a float `v` against a finite
`alpha`: NaN compares false, as in IEEE-754. -/
def ltReal : FV → ℝ → Prop
  | num x, a => x < a
  | pinf, _ => False
  | ninf, _ => True
  | nan, _ => False

end FV

/-- `np.var(xs, ddof=1)`: sample variance with denominator `n - 1` (only
evaluated on lists of length ≥ 2; on shorter lists the float code yields NaN,
which the caller below accounts for). -/
def svar (xs : List ℚ) : ℚ :=
  (xs.map (fun x => (x - mean xs) ^ 2)).sum / ((xs.length : ℚ) - 1)

/-- `v₁/n₁ + v₂/n₂`, the square of Welch's denominator (scipy's
`vn1 + vn2`). -/
def welchDenomSq (a b : List ℚ) : ℚ :=
  svar a / (a.length : ℚ) + svar b / (b.length : ℚ)

/-- The Welch–Satterthwaite degrees of freedom
`(vn1 + vn2)^2 / (vn1^2/(n1-1) + vn2^2/(n2-1))`. -/
def welchDF (a b : List ℚ) : ℚ :=
  welchDenomSq a b ^ 2 /
    ((svar a / (a.length : ℚ)) ^ 2 / ((a.length : ℚ) - 1) +
      (svar b / (b.length : ℚ)) ^ 2 / ((b.length : ℚ) - 1))

/-- The finite-case Welch statistic `(m₁ - m₂) / sqrt(vn1 + vn2)`. -/
noncomputable def welchT (a b : List ℚ) : ℝ :=
  ((mean a - mean b : ℚ) : ℝ) / Real.sqrt ((welchDenomSq a b : ℚ) : ℝ)

/-- `scipy.stats.ttest_ind(a, b, equal_var=False)` (Welch's t-test), with the
Student-t survival function abstracted as `sf t df`.  Branches mirror the
float behaviour of scipy's `_unequal_var_ttest_denom` / `_ttest_ind_from_stats`:
* a sample of length 0 gives NaN mean, length 1 gives NaN sample variance, and
  NaN propagates to both outputs (`p < alpha` is then false);
* when both variances are zero the Welch degrees of freedom are `0/0` = NaN
  (scipy substitutes `df = 1`) and the denominator is zero, so `t = d/0` is
  NaN if the means are equal, `±inf` otherwise — and `sf` at `±inf` is exactly
  `0.0`, giving `p = 0`;
* otherwise everything is finite: `t = (m₁ - m₂) / sqrt(v₁/n₁ + v₂/n₂)`,
  `df` by Welch–Satterthwaite, `p = 2 * sf |t| df`. -/
noncomputable def tTestWelch (sf : ℝ → ℝ → ℝ) (a b : List ℚ) : FV × FV :=
  if a.length < 2 ∨ b.length < 2 then (FV.nan, FV.nan)
  else if welchDenomSq a b = 0 then
    if mean a - mean b = 0 then (FV.nan, FV.nan)
    else if 0 < mean a - mean b then (FV.pinf, FV.num 0)
    else (FV.ninf, FV.num 0)
  else
    (FV.num (welchT a b),
     FV.num (2 * sf |welchT a b| ((welchDF a b : ℚ) : ℝ)))

/-- `StatsUtils.perform_hypothesis_test`: selects the rows labelled `"ad"` and
`"psa"` (the labels are hardcoded), runs Welch's t-test on their outcome
columns, and returns `(t_statistic, p_value, p_value < alpha)`. -/
noncomputable def perform_hypothesis_test (sf : ℝ → ℝ → ℝ) (data : RecordSet)
    (alpha : ℝ) : FV × FV × Prop :=
  ((tTestWelch sf (groupOutcomes data "ad") (groupOutcomes data "psa")).1,
   (tTestWelch sf (groupOutcomes data "ad") (groupOutcomes data "psa")).2,
   FV.ltReal
     (tTestWelch sf (groupOutcomes data "ad") (groupOutcomes data "psa")).2
     alpha)

/-- Exchange the two hardcoded labels on one record. -/
def swapRecord (r : Record) : Record :=
  if r.group = "ad" then { r with group := "psa" }
  else if r.group = "psa" then { r with group := "ad" }
  else r

/-- Relabel every `"ad"` record `"psa"` and vice versa, leaving other rows
unchanged: the group-exchange transformation of claim C6. -/
def swapLabels (data : RecordSet) : RecordSet :=
  data.map swapRecord

/-!
State-passing wrappers.  The Python methods receive the caller's mutable
DataFrame; the only in-place mutations in `stats_utils.py` (`rename(...,
inplace=True)` on line 15 and `reset_index(inplace=True)` on line 66) act on
freshly created result frames, never on `data`, so each wrapper returns the
input state unchanged next to the result.
-/

/-- `calculate_conversion_rate` as a state transformer on the caller's
DataFrame. -/
def calculate_conversion_rate_st (data : RecordSet) :
    RecordSet × List (String × ℚ) :=
  (data, calculate_conversion_rate data)

/-- `calculate_confidence_interval` as a state transformer on the caller's
DataFrame. -/
noncomputable def calculate_confidence_interval_st (ppf : ℝ → ℝ)
    (data : RecordSet) (confidence : ℝ) : RecordSet × List CIRow :=
  (data, calculate_confidence_interval ppf data confidence)

/-- `perform_hypothesis_test` as a state transformer on the caller's
DataFrame. -/
noncomputable def perform_hypothesis_test_st (sf : ℝ → ℝ → ℝ)
    (data : RecordSet) (alpha : ℝ) : RecordSet × (FV × FV × Prop) :=
  (data, perform_hypothesis_test sf data alpha)

/-! ### Concrete datasets used by witnesses and counterexamples -/

/-- Sample dataset for claim C1: one group `"ad"` with outcomes
`[1, 1, 1, 0, 0]` (p = 3/5, n = 5). -/
def dataC1 : RecordSet :=
  [⟨"ad", 1⟩, ⟨"ad", 1⟩, ⟨"ad", 1⟩, ⟨"ad", 0⟩, ⟨"ad", 0⟩]

/-- Sample dataset for claim C2: groups `"ad"` (2/3) and `"psa"` (0/2). -/
def dataC2 : RecordSet :=
  [⟨"ad", 1⟩, ⟨"psa", 0⟩, ⟨"ad", 1⟩, ⟨"ad", 0⟩, ⟨"psa", 0⟩]

/-- Dataset for claim C3: only `"ad"` records, the label `"psa"` is absent. -/
def dataC3 : RecordSet :=
  [⟨"ad", 0⟩, ⟨"ad", 1⟩]

/-- Dataset for claim C4: group `"ad"` has a single record. -/
def dataC4 : RecordSet :=
  [⟨"ad", 1⟩, ⟨"psa", 0⟩, ⟨"psa", 1⟩]

/-- Dataset for claim C5: both groups have ≥ 2 records, zero variance and the
same mean (all outcomes are 1), so the Welch statistic is 0/0. -/
def dataC5 : RecordSet :=
  [⟨"ad", 1⟩, ⟨"ad", 1⟩, ⟨"psa", 1⟩, ⟨"psa", 1⟩]

/-- Dataset for claim C6: groups `"ad" = [0,1]` and `"psa" = [0,0,1]`, both of
size ≥ 2 with nonzero variance, so the Welch statistic is finite. -/
def dataC6 : RecordSet :=
  [⟨"ad", 0⟩, ⟨"ad", 1⟩, ⟨"psa", 0⟩, ⟨"psa", 0⟩, ⟨"psa", 1⟩]

/-- Dataset for claim C7: a single group `"ad"` with one success. -/
def dataC7 : RecordSet :=
  [⟨"ad", 1⟩]

/-- First dataset for claim C9: two `"ad"` records, no others. -/
def dataC9a : RecordSet :=
  [⟨"ad", 1⟩, ⟨"ad", 0⟩]

/-- Second dataset for claim C9: the same `"ad"` records plus a record with
the unrelated label `"other"`. -/
def dataC9b : RecordSet :=
  [⟨"ad", 1⟩, ⟨"other", 1⟩, ⟨"ad", 0⟩]

/-- Dataset for claim C10: the label `"ad"` is absent, so the t-test's
p-value is NaN. -/
def dataC10 : RecordSet :=
  [⟨"psa", 0⟩, ⟨"psa", 1⟩, ⟨"psa", 1⟩]

/-! ### Basic lemmas about the aggregations -/

theorem mem_groupKeys {data : RecordSet} {g : String} :
    g ∈ groupKeys data ↔ g ∈ data.map Record.group := by
  unfold groupKeys
  rw [(List.perm_insertionSort (· ≤ ·) _).mem_iff, List.mem_dedup]

theorem groupOutcomes_length_pos {data : RecordSet} {g : String}
    (h : g ∈ data.map Record.group) : 0 < (groupOutcomes data g).length := by
  obtain ⟨r, hr, hg⟩ := List.mem_map.mp h
  unfold groupOutcomes
  rw [List.length_map, List.length_pos]
  intro hnil
  have : r ∈ data.filter (fun r => r.group == g) :=
    List.mem_filter.mpr ⟨hr, by simp [hg]⟩
  simp [hnil] at this

theorem sum_eq_successCount {xs : List ℚ} (h : BoolOutcomes xs) :
    xs.sum = (successCount xs : ℚ) := by
  induction xs with
  | nil => simp [successCount]
  | cons x xs ih =>
    have hx := h x (List.mem_cons_self _ _)
    have hxs : BoolOutcomes xs := fun y hy => h y (List.mem_cons_of_mem _ hy)
    rcases hx with h0 | h1
    · subst h0
      simp [successCount, List.filter_cons, List.sum_cons, ih hxs]
    · subst h1
      simp only [successCount, List.filter_cons, List.sum_cons, ih hxs] at *
      simp [successCount]
      ring

theorem lookup_map_self {keys : List String} {g : String} (f : String → ℚ)
    (h : g ∈ keys) :
    (keys.map (fun k => (k, f k))).lookup g = some (f g) := by
  induction keys with
  | nil => simp at h
  | cons k ks ih =>
    by_cases hg : g = k
    · subst hg; simp [List.lookup]
    · have hne : (g == k) = false := beq_eq_false_iff_ne.mpr hg
      have hk : g ∈ ks := by
        rcases List.mem_cons.mp h with h' | h'
        · exact absurd h' hg
        · exact h'
      simp [List.lookup, hne, ih hk]

theorem groupOutcomes_cons (r : Record) (rs : RecordSet) (g : String) :
    groupOutcomes (r :: rs) g =
      if r.group = g then r.outcome :: groupOutcomes rs g
      else groupOutcomes rs g := by
  by_cases h : r.group = g <;> simp [groupOutcomes, List.filter_cons, h]

theorem groupOutcomes_eq_nil {data : RecordSet} {g : String}
    (h : ∀ r ∈ data, r.group ≠ g) : groupOutcomes data g = [] := by
  unfold groupOutcomes
  rw [List.filter_eq_nil_iff.mpr (by simpa using h)]
  rfl

theorem mem_of_groupOutcomes_length_pos {data : RecordSet} {g : String}
    (h : 0 < (groupOutcomes data g).length) : g ∈ data.map Record.group := by
  unfold groupOutcomes at h
  rw [List.length_map, List.length_pos] at h
  obtain ⟨r, hr⟩ := List.exists_mem_of_ne_nil _ h
  have hf := List.mem_filter.mp hr
  exact List.mem_map.mpr ⟨r, hf.1, by simpa using hf.2⟩

theorem mean_singleton (x : ℚ) : mean [x] = x := by
  simp [mean]

theorem tTestWelch_nan_of_short {sf : ℝ → ℝ → ℝ} {a b : List ℚ}
    (h : a.length < 2 ∨ b.length < 2) :
    tTestWelch sf a b = (FV.nan, FV.nan) := by
  unfold tTestWelch
  rw [if_pos h]

theorem pht_of_ttest_nan {sf : ℝ → ℝ → ℝ} {data : RecordSet} {alpha : ℝ}
    (h : tTestWelch sf (groupOutcomes data "ad") (groupOutcomes data "psa") =
      (FV.nan, FV.nan)) :
    (perform_hypothesis_test sf data alpha).1 = FV.nan ∧
    (perform_hypothesis_test sf data alpha).2.1 = FV.nan ∧
    ¬ (perform_hypothesis_test sf data alpha).2.2 := by
  unfold perform_hypothesis_test
  rw [h]
  exact ⟨rfl, rfl, fun hc => hc⟩

theorem boolOutcomes_groupOutcomes {data : RecordSet} {g : String}
    (h : BoolOutcomes (data.map Record.outcome)) :
    BoolOutcomes (groupOutcomes data g) := by
  intro x hx
  apply h
  obtain ⟨r, hr, hrx⟩ := List.mem_map.mp hx
  exact List.mem_map.mpr ⟨r, List.mem_of_mem_filter hr, hrx⟩

theorem mean_eq_successCount_div {data : RecordSet} {g : String}
    (h : BoolOutcomes (data.map Record.outcome)) :
    mean (groupOutcomes data g) =
      (successCount (groupOutcomes data g) : ℚ) /
        ((groupOutcomes data g).length : ℚ) := by
  unfold mean
  rw [sum_eq_successCount (boolOutcomes_groupOutcomes h)]

/-- C1: on a boolean outcome column and any confidence level in (0,1),
`calculate_confidence_interval` reports, for every group (each has n ≥ 1
records), exactly `p = successes/n`, `lower_bound = p - z·sqrt(p(1-p)/n)` and
`upper_bound = p + z·sqrt(p(1-p)/n)` with `z = ppf((1+confidence)/2)` — the
unclamped Wald bounds. -/
theorem c1_wald_interval_exact (ppf : ℝ → ℝ) (data : RecordSet) (c : ℝ)
    (_hc0 : 0 < c) (_hc1 : c < 1)
    (hbool : BoolOutcomes (data.map Record.outcome))
    (g : String) (hg : g ∈ data.map Record.group) :
    ∃ row ∈ calculate_confidence_interval ppf data c,
      row.group = g ∧
      1 ≤ row.sample_size ∧
      row.sample_size = (groupOutcomes data g).length ∧
      row.conversion_rate =
        (successCount (groupOutcomes data g) : ℚ) / (row.sample_size : ℚ) ∧
      row.lower_bound = (row.conversion_rate : ℝ) -
        ppf ((1 + c) / 2) *
          Real.sqrt ((row.conversion_rate : ℝ) * (1 - (row.conversion_rate : ℝ)) /
            (row.sample_size : ℝ)) ∧
      row.upper_bound = (row.conversion_rate : ℝ) +
        ppf ((1 + c) / 2) *
          Real.sqrt ((row.conversion_rate : ℝ) * (1 - (row.conversion_rate : ℝ)) /
            (row.sample_size : ℝ)) := by
  have hgk : g ∈ groupKeys data := mem_groupKeys.mpr hg
  have hcast : ((proportion data g * (1 - proportion data g) /
      ((groupOutcomes data g).length : ℚ) : ℚ) : ℝ) =
      (proportion data g : ℝ) * (1 - (proportion data g : ℝ)) /
        ((groupOutcomes data g).length : ℝ) := by
    push_cast
    ring
  refine ⟨ciRow ppf data c g, List.mem_map_of_mem _ hgk, rfl,
    groupOutcomes_length_pos hg, rfl, ?_, ?_, ?_⟩
  · show proportion data g = _
    unfold proportion
    rw [sum_eq_successCount (boolOutcomes_groupOutcomes hbool)]
    rfl
  · show (proportion data g : ℝ) - Real.sqrt _ * ppf ((1 + c) / 2) = _
    rw [hcast, mul_comm]
    rfl
  · show (proportion data g : ℝ) + Real.sqrt _ * ppf ((1 + c) / 2) = _
    rw [hcast, mul_comm]
    rfl

/-- Witness for C1 at `dataC1`, `ppf = const 2`, `confidence = 95/100`. -/
theorem c1_wald_interval_exact_witness :
    (0 < (95 : ℝ) / 100 ∧ (95 : ℝ) / 100 < 1 ∧
      BoolOutcomes (dataC1.map Record.outcome) ∧
      "ad" ∈ dataC1.map Record.group) ∧
    ∃ row ∈ calculate_confidence_interval (fun _ => 2) dataC1 (95 / 100),
      row.group = "ad" ∧
      1 ≤ row.sample_size ∧
      row.sample_size = (groupOutcomes dataC1 "ad").length ∧
      row.conversion_rate =
        (successCount (groupOutcomes dataC1 "ad") : ℚ) / (row.sample_size : ℚ) ∧
      row.lower_bound = (row.conversion_rate : ℝ) -
        (fun _ => (2 : ℝ)) ((1 + 95 / 100) / 2) *
          Real.sqrt ((row.conversion_rate : ℝ) * (1 - (row.conversion_rate : ℝ)) /
            (row.sample_size : ℝ)) ∧
      row.upper_bound = (row.conversion_rate : ℝ) +
        (fun _ => (2 : ℝ)) ((1 + 95 / 100) / 2) *
          Real.sqrt ((row.conversion_rate : ℝ) * (1 - (row.conversion_rate : ℝ)) /
            (row.sample_size : ℝ)) :=
  ⟨⟨by norm_num, by norm_num, by decide, by decide⟩,
    c1_wald_interval_exact (fun _ => 2) dataC1 (95 / 100) (by norm_num)
      (by norm_num) (by decide) "ad" (by decide)⟩

/-- C2: for every group present in the data (boolean outcomes), the
conversion rate reported by `calculate_conversion_rate` equals
(number of records with outcome true) / (number of records in the group), and
the `conversion_rate` column of `calculate_confidence_interval` carries the
same value. -/
theorem c2_conversion_rate_agree (ppf : ℝ → ℝ) (data : RecordSet) (c : ℝ)
    (g : String) (hg : g ∈ data.map Record.group)
    (hbool : BoolOutcomes (data.map Record.outcome)) :
    (calculate_conversion_rate data).lookup g =
      some ((successCount (groupOutcomes data g) : ℚ) /
        ((groupOutcomes data g).length : ℚ)) ∧
    ∃ row ∈ calculate_confidence_interval ppf data c,
      row.group = g ∧
      row.conversion_rate =
        (successCount (groupOutcomes data g) : ℚ) /
          ((groupOutcomes data g).length : ℚ) := by
  constructor
  · unfold calculate_conversion_rate
    rw [lookup_map_self (fun k => mean (groupOutcomes data k))
        (mem_groupKeys.mpr hg)]
    rw [mean_eq_successCount_div hbool]
  · refine ⟨ciRow ppf data c g, List.mem_map_of_mem _ (mem_groupKeys.mpr hg),
      rfl, ?_⟩
    show proportion data g = _
    unfold proportion
    rw [sum_eq_successCount (boolOutcomes_groupOutcomes hbool)]

/-- Witness for C2 at `dataC2`, group `"psa"`. -/
theorem c2_conversion_rate_agree_witness :
    ("psa" ∈ dataC2.map Record.group ∧
      BoolOutcomes (dataC2.map Record.outcome)) ∧
    ((calculate_conversion_rate dataC2).lookup "psa" =
      some ((successCount (groupOutcomes dataC2 "psa") : ℚ) /
        ((groupOutcomes dataC2 "psa").length : ℚ)) ∧
    ∃ row ∈ calculate_confidence_interval (fun _ => 2) dataC2 (1 / 2),
      row.group = "psa" ∧
      row.conversion_rate =
        (successCount (groupOutcomes dataC2 "psa") : ℚ) /
          ((groupOutcomes dataC2 "psa").length : ℚ)) :=
  ⟨⟨by decide, by decide⟩,
    c2_conversion_rate_agree (fun _ => 2) dataC2 (1 / 2) "psa" (by decide)
      (by decide)⟩

/-- C3 counterexample: on `dataC3`, where the label `"psa"` is absent,
`perform_hypothesis_test` does not fail — it returns the result triple
`(t = NaN, p = NaN, is_significant = False)` (there is no `UnknownGroupError`
anywhere in the code). -/
theorem c3_counterexample :
    (perform_hypothesis_test (fun _ _ => 0) dataC3 (1 / 20)).1 = FV.nan ∧
    (perform_hypothesis_test (fun _ _ => 0) dataC3 (1 / 20)).2.1 = FV.nan ∧
    ¬ (perform_hypothesis_test (fun _ _ => 0) dataC3 (1 / 20)).2.2 :=
  ⟨rfl, rfl, fun hc => hc⟩

/-- C3 amended: if either hardcoded label (`"ad"`, `"psa"`) is absent from the
data, `perform_hypothesis_test` returns normally with `t = NaN`, `p = NaN`
and `is_significant = False` (it never raises). -/
theorem c3_absent_group_returns_nan (sf : ℝ → ℝ → ℝ) (data : RecordSet)
    (alpha : ℝ)
    (h : (∀ r ∈ data, r.group ≠ "ad") ∨ (∀ r ∈ data, r.group ≠ "psa")) :
    (perform_hypothesis_test sf data alpha).1 = FV.nan ∧
    (perform_hypothesis_test sf data alpha).2.1 = FV.nan ∧
    ¬ (perform_hypothesis_test sf data alpha).2.2 := by
  apply pht_of_ttest_nan
  apply tTestWelch_nan_of_short
  rcases h with h | h
  · left
    rw [groupOutcomes_eq_nil h]
    decide
  · right
    rw [groupOutcomes_eq_nil h]
    decide

/-- Witness for the amended C3 on a dataset with `"psa"` records only. -/
theorem c3_absent_group_returns_nan_witness :
    ((∀ r ∈ ([⟨"psa", 0⟩, ⟨"psa", 1⟩] : RecordSet), r.group ≠ "ad") ∨
      (∀ r ∈ ([⟨"psa", 0⟩, ⟨"psa", 1⟩] : RecordSet), r.group ≠ "psa")) ∧
    ((perform_hypothesis_test (fun _ _ => 0) [⟨"psa", 0⟩, ⟨"psa", 1⟩] (1 / 20)).1
        = FV.nan ∧
      (perform_hypothesis_test (fun _ _ => 0) [⟨"psa", 0⟩, ⟨"psa", 1⟩]
        (1 / 20)).2.1 = FV.nan ∧
      ¬ (perform_hypothesis_test (fun _ _ => 0) [⟨"psa", 0⟩, ⟨"psa", 1⟩]
        (1 / 20)).2.2) :=
  ⟨Or.inl (by decide),
    c3_absent_group_returns_nan (fun _ _ => 0) _ (1 / 20) (Or.inl (by decide))⟩

/-- C4 counterexample: on `dataC4`, where group `"ad"` has one record,
`perform_hypothesis_test` does not raise `InsufficientSampleError` — it
returns `(NaN, NaN, False)` normally. -/
theorem c4_counterexample :
    (perform_hypothesis_test (fun _ _ => 0) dataC4 (1 / 20)).1 = FV.nan ∧
    (perform_hypothesis_test (fun _ _ => 0) dataC4 (1 / 20)).2.1 = FV.nan ∧
    ¬ (perform_hypothesis_test (fun _ _ => 0) dataC4 (1 / 20)).2.2 :=
  ⟨rfl, rfl, fun hc => hc⟩

/-- C4 amended: a compared group with fewer than 2 records makes
`perform_hypothesis_test` return `(NaN, NaN, False)` normally (no
`InsufficientSampleError` exists); `calculate_conversion_rate` and
`calculate_confidence_interval` are indeed total on a group of
`sample_size = 1`, reporting that record's outcome as the rate. -/
theorem c4_small_group_returns_nan (ppf : ℝ → ℝ) (sf : ℝ → ℝ → ℝ)
    (data : RecordSet) (c alpha : ℝ) (g : String)
    (h1 : (groupOutcomes data "ad").length = 1 ∨
      (groupOutcomes data "psa").length = 1)
    (hg : (groupOutcomes data g).length = 1) :
    ((perform_hypothesis_test sf data alpha).1 = FV.nan ∧
      (perform_hypothesis_test sf data alpha).2.1 = FV.nan ∧
      ¬ (perform_hypothesis_test sf data alpha).2.2) ∧
    (∃ x, groupOutcomes data g = [x] ∧
      (calculate_conversion_rate data).lookup g = some x ∧
      ∃ row ∈ calculate_confidence_interval ppf data c,
        row.group = g ∧ row.sample_size = 1 ∧ row.conversion_rate = x) := by
  constructor
  · apply pht_of_ttest_nan
    apply tTestWelch_nan_of_short
    rcases h1 with h1 | h1
    · exact Or.inl (by omega)
    · exact Or.inr (by omega)
  · obtain ⟨x, hx⟩ := List.length_eq_one.mp hg
    have hmem : g ∈ data.map Record.group :=
      mem_of_groupOutcomes_length_pos (by omega)
    refine ⟨x, hx, ?_, ciRow ppf data c g,
      List.mem_map_of_mem _ (mem_groupKeys.mpr hmem), rfl, hg, ?_⟩
    · unfold calculate_conversion_rate
      rw [lookup_map_self (fun k => mean (groupOutcomes data k))
          (mem_groupKeys.mpr hmem)]
      rw [hx, mean_singleton]
    · show proportion data g = x
      unfold proportion
      rw [hx]
      simp

/-- Witness for the amended C4 at `dataC4`, group `"ad"`. -/
theorem c4_small_group_returns_nan_witness :
    (((groupOutcomes dataC4 "ad").length = 1 ∨
        (groupOutcomes dataC4 "psa").length = 1) ∧
      (groupOutcomes dataC4 "ad").length = 1) ∧
    (((perform_hypothesis_test (fun _ _ => 0) dataC4 (1 / 20)).1 = FV.nan ∧
      (perform_hypothesis_test (fun _ _ => 0) dataC4 (1 / 20)).2.1 = FV.nan ∧
      ¬ (perform_hypothesis_test (fun _ _ => 0) dataC4 (1 / 20)).2.2) ∧
    (∃ x, groupOutcomes dataC4 "ad" = [x] ∧
      (calculate_conversion_rate dataC4).lookup "ad" = some x ∧
      ∃ row ∈ calculate_confidence_interval (fun _ => 2) dataC4 (1 / 2),
        row.group = "ad" ∧ row.sample_size = 1 ∧ row.conversion_rate = x)) :=
  ⟨⟨Or.inl (by decide), by decide⟩,
    c4_small_group_returns_nan (fun _ => 2) (fun _ _ => 0) dataC4 (1 / 2)
      (1 / 20) "ad" (Or.inl (by decide)) (by decide)⟩

/-- C5 counterexample: on `dataC5` (zero variance in both groups, equal
means) `perform_hypothesis_test` does not raise `DegenerateInputError` — it
returns the NaN triple to the caller. -/
theorem c5_counterexample :
    (perform_hypothesis_test (fun _ _ => 0) dataC5 (1 / 20)).1 = FV.nan ∧
    (perform_hypothesis_test (fun _ _ => 0) dataC5 (1 / 20)).2.1 = FV.nan ∧
    ¬ (perform_hypothesis_test (fun _ _ => 0) dataC5 (1 / 20)).2.2 := by
  have h : tTestWelch (fun _ _ => 0) (groupOutcomes dataC5 "ad")
      (groupOutcomes dataC5 "psa") = (FV.nan, FV.nan) := by
    have had : groupOutcomes dataC5 "ad" = [1, 1] := rfl
    have hpsa : groupOutcomes dataC5 "psa" = [1, 1] := rfl
    rw [had, hpsa]
    unfold tTestWelch
    norm_num [welchDenomSq, svar, mean, List.sum_cons, List.sum_nil]
  exact pht_of_ttest_nan h

/-- C5 amended: when both compared groups have at least 2 records, zero
sample variance and identical means, `perform_hypothesis_test` returns
`t = NaN`, `p = NaN` and `is_significant = False` instead of raising (no
`DegenerateInputError` exists in the code). -/
theorem c5_degenerate_returns_nan (sf : ℝ → ℝ → ℝ) (data : RecordSet)
    (alpha : ℝ)
    (h2a : 2 ≤ (groupOutcomes data "ad").length)
    (h2b : 2 ≤ (groupOutcomes data "psa").length)
    (hva : svar (groupOutcomes data "ad") = 0)
    (hvb : svar (groupOutcomes data "psa") = 0)
    (hm : mean (groupOutcomes data "ad") = mean (groupOutcomes data "psa")) :
    (perform_hypothesis_test sf data alpha).1 = FV.nan ∧
    (perform_hypothesis_test sf data alpha).2.1 = FV.nan ∧
    ¬ (perform_hypothesis_test sf data alpha).2.2 := by
  apply pht_of_ttest_nan
  unfold tTestWelch
  rw [if_neg (by omega)]
  simp [welchDenomSq, hva, hvb, hm]

/-- Witness for the amended C5 at `dataC5`. -/
theorem c5_degenerate_returns_nan_witness :
    (2 ≤ (groupOutcomes dataC5 "ad").length ∧
      2 ≤ (groupOutcomes dataC5 "psa").length ∧
      svar (groupOutcomes dataC5 "ad") = 0 ∧
      svar (groupOutcomes dataC5 "psa") = 0 ∧
      mean (groupOutcomes dataC5 "ad") = mean (groupOutcomes dataC5 "psa")) ∧
    ((perform_hypothesis_test (fun _ _ => 1) dataC5 (1 / 2)).1 = FV.nan ∧
      (perform_hypothesis_test (fun _ _ => 1) dataC5 (1 / 2)).2.1 = FV.nan ∧
      ¬ (perform_hypothesis_test (fun _ _ => 1) dataC5 (1 / 2)).2.2) :=
  by
  have had : groupOutcomes dataC5 "ad" = [1, 1] := rfl
  have hpsa : groupOutcomes dataC5 "psa" = [1, 1] := rfl
  have hva : svar (groupOutcomes dataC5 "ad") = 0 := by
    rw [had]
    norm_num [svar, mean, List.sum_cons, List.sum_nil]
  have hvb : svar (groupOutcomes dataC5 "psa") = 0 := by
    rw [hpsa]
    norm_num [svar, mean, List.sum_cons, List.sum_nil]
  have hm : mean (groupOutcomes dataC5 "ad") =
      mean (groupOutcomes dataC5 "psa") := by
    rw [had, hpsa]
  exact ⟨⟨by decide, by decide, hva, hvb, hm⟩,
    c5_degenerate_returns_nan (fun _ _ => 1) dataC5 (1 / 2) (by decide)
      (by decide) hva hvb hm⟩

theorem groupOutcomes_swapLabels_ad (data : RecordSet) :
    groupOutcomes (swapLabels data) "ad" = groupOutcomes data "psa" := by
  induction data with
  | nil => rfl
  | cons r rs ih =>
    have hcons : swapLabels (r :: rs) = swapRecord r :: swapLabels rs := rfl
    rw [hcons, groupOutcomes_cons, groupOutcomes_cons, ih]
    by_cases h1 : r.group = "ad"
    · simp [swapRecord, h1]
    · by_cases h2 : r.group = "psa"
      · simp [swapRecord, h1, h2]
      · simp [swapRecord, h1, h2]

theorem groupOutcomes_swapLabels_psa (data : RecordSet) :
    groupOutcomes (swapLabels data) "psa" = groupOutcomes data "ad" := by
  induction data with
  | nil => rfl
  | cons r rs ih =>
    have hcons : swapLabels (r :: rs) = swapRecord r :: swapLabels rs := rfl
    rw [hcons, groupOutcomes_cons, groupOutcomes_cons, ih]
    by_cases h1 : r.group = "ad"
    · simp [swapRecord, h1]
    · by_cases h2 : r.group = "psa"
      · simp [swapRecord, h1, h2]
      · simp [swapRecord, h1, h2]

theorem welchDenomSq_comm (a b : List ℚ) :
    welchDenomSq b a = welchDenomSq a b := by
  unfold welchDenomSq
  exact add_comm _ _

theorem welchDF_comm (a b : List ℚ) : welchDF b a = welchDF a b := by
  unfold welchDF
  rw [welchDenomSq_comm, add_comm]

theorem welchT_swap (a b : List ℚ) : welchT b a = -welchT a b := by
  unfold welchT
  rw [welchDenomSq_comm]
  rw [show mean b - mean a = -(mean a - mean b) from by ring]
  push_cast
  rw [neg_div]

theorem tTestWelch_swap (sf : ℝ → ℝ → ℝ) (a b : List ℚ) :
    (tTestWelch sf b a).1 = FV.neg (tTestWelch sf a b).1 ∧
    (tTestWelch sf b a).2 = (tTestWelch sf a b).2 := by
  unfold tTestWelch
  rw [welchDenomSq_comm a b, welchDF_comm a b, welchT_swap a b]
  by_cases hlen : a.length < 2 ∨ b.length < 2
  · rw [if_pos hlen.symm, if_pos hlen]
    exact ⟨rfl, rfl⟩
  · rw [if_neg (fun h => hlen h.symm), if_neg hlen]
    by_cases hd : welchDenomSq a b = 0
    · rw [if_pos hd, if_pos hd]
      by_cases hm : mean a - mean b = 0
      · rw [if_pos hm, if_pos (show mean b - mean a = 0 from by linarith)]
        exact ⟨rfl, rfl⟩
      · rw [if_neg hm,
          if_neg (show ¬mean b - mean a = 0 from fun h => hm (by linarith))]
        by_cases hp : 0 < mean a - mean b
        · rw [if_pos hp, if_neg (show ¬0 < mean b - mean a from by linarith)]
          exact ⟨rfl, rfl⟩
        · have hlt : mean a - mean b < 0 := lt_of_le_of_ne (not_lt.mp hp) hm
          rw [if_neg hp, if_pos (show 0 < mean b - mean a from by linarith)]
          exact ⟨rfl, rfl⟩
    · rw [if_neg hd, if_neg hd]
      refine ⟨rfl, ?_⟩
      rw [abs_neg]

/-- C6: when both compared groups have at least 2 records and the t statistic
is defined, exchanging the two labels (`swapLabels`) negates the returned t
statistic and leaves the p-value and `is_significant` unchanged. -/
theorem c6_label_swap_negates_t (sf : ℝ → ℝ → ℝ) (data : RecordSet)
    (alpha : ℝ)
    (_h2a : 2 ≤ (groupOutcomes data "ad").length)
    (_h2b : 2 ≤ (groupOutcomes data "psa").length)
    (_hdef : (perform_hypothesis_test sf data alpha).1 ≠ FV.nan) :
    (perform_hypothesis_test sf (swapLabels data) alpha).1 =
      FV.neg (perform_hypothesis_test sf data alpha).1 ∧
    (perform_hypothesis_test sf (swapLabels data) alpha).2.1 =
      (perform_hypothesis_test sf data alpha).2.1 ∧
    ((perform_hypothesis_test sf (swapLabels data) alpha).2.2 ↔
      (perform_hypothesis_test sf data alpha).2.2) := by
  unfold perform_hypothesis_test
  rw [groupOutcomes_swapLabels_ad, groupOutcomes_swapLabels_psa]
  have h := tTestWelch_swap sf (groupOutcomes data "ad")
    (groupOutcomes data "psa")
  exact ⟨h.1, h.2, by rw [h.2]⟩

/-- Witness for C6 at `dataC6` (finite t statistic). -/
theorem c6_label_swap_negates_t_witness :
    (2 ≤ (groupOutcomes dataC6 "ad").length ∧
      2 ≤ (groupOutcomes dataC6 "psa").length ∧
      (perform_hypothesis_test (fun _ _ => 1) dataC6 (1 / 20)).1 ≠ FV.nan) ∧
    ((perform_hypothesis_test (fun _ _ => 1) (swapLabels dataC6) (1 / 20)).1 =
      FV.neg (perform_hypothesis_test (fun _ _ => 1) dataC6 (1 / 20)).1 ∧
    (perform_hypothesis_test (fun _ _ => 1) (swapLabels dataC6) (1 / 20)).2.1 =
      (perform_hypothesis_test (fun _ _ => 1) dataC6 (1 / 20)).2.1 ∧
    ((perform_hypothesis_test (fun _ _ => 1) (swapLabels dataC6) (1 / 20)).2.2 ↔
      (perform_hypothesis_test (fun _ _ => 1) dataC6 (1 / 20)).2.2)) := by
  have had : groupOutcomes dataC6 "ad" = [0, 1] := rfl
  have hpsa : groupOutcomes dataC6 "psa" = [0, 0, 1] := rfl
  have hdenom : welchDenomSq [0, 1] [0, 0, 1] ≠ 0 := by
    norm_num [welchDenomSq, svar, mean, List.sum_cons, List.sum_nil]
  have hdef : (perform_hypothesis_test (fun _ _ => 1) dataC6 (1 / 20)).1 ≠
      FV.nan := by
    unfold perform_hypothesis_test
    rw [had, hpsa]
    unfold tTestWelch
    rw [if_neg (by norm_num), if_neg hdenom]
    exact fun h => FV.noConfusion h
  exact ⟨⟨by rw [had]; decide, by rw [hpsa]; decide, hdef⟩,
    c6_label_swap_negates_t (fun _ _ => 1) dataC6 (1 / 20)
      (by rw [had]; decide) (by rw [hpsa]; decide) hdef⟩

/-- C7: for a fixed group and dataset, and confidence levels
`0 < c1 < c2 < 1`, the interval `calculate_confidence_interval` reports at
`c2` is at least as wide as the one at `c1`, assuming the inverse normal CDF
(`ppf`) is monotone on (0,1) — the property of `scipy.stats.norm.ppf` the
spec itself invokes. -/
theorem c7_interval_width_monotone (ppf : ℝ → ℝ)
    (hmono : MonotoneOn ppf (Set.Ioo (0 : ℝ) 1))
    (data : RecordSet) (g : String) (c1 c2 : ℝ)
    (hc0 : 0 < c1) (hc12 : c1 < c2) (hc1 : c2 < 1)
    (row1 row2 : CIRow)
    (hr1 : row1 ∈ calculate_confidence_interval ppf data c1)
    (hr2 : row2 ∈ calculate_confidence_interval ppf data c2)
    (hg1 : row1.group = g) (hg2 : row2.group = g) :
    row1.upper_bound - row1.lower_bound ≤
      row2.upper_bound - row2.lower_bound := by
  obtain ⟨g1, _, he1⟩ := List.mem_map.mp hr1
  obtain ⟨g2, _, he2⟩ := List.mem_map.mp hr2
  have hgg1 : g1 = g := by rw [← hg1, ← he1]; rfl
  have hgg2 : g2 = g := by rw [← hg2, ← he2]; rfl
  rw [← he1, ← he2, hgg1, hgg2]
  simp only [ciRow]
  have hs : (0 : ℝ) ≤ Real.sqrt ((proportion data g *
      (1 - proportion data g) / ((groupOutcomes data g).length : ℚ) : ℚ) : ℝ) :=
    Real.sqrt_nonneg _
  have hz : ppf ((1 + c1) / 2) ≤ ppf ((1 + c2) / 2) := by
    apply hmono
    · exact ⟨by linarith, by linarith⟩
    · exact ⟨by linarith, by linarith⟩
    · linarith
  linarith [mul_le_mul_of_nonneg_left hz hs]

/-- Witness for C7 at `dataC7` with `ppf = id`, `c1 = 1/4`, `c2 = 1/2`. -/
theorem c7_interval_width_monotone_witness :
    (MonotoneOn (fun x : ℝ => x) (Set.Ioo (0 : ℝ) 1) ∧
      (0 : ℝ) < 1 / 4 ∧ (1 / 4 : ℝ) < 1 / 2 ∧ (1 / 2 : ℝ) < 1 ∧
      ciRow (fun x => x) dataC7 (1 / 4) "ad" ∈
        calculate_confidence_interval (fun x => x) dataC7 (1 / 4) ∧
      ciRow (fun x => x) dataC7 (1 / 2) "ad" ∈
        calculate_confidence_interval (fun x => x) dataC7 (1 / 2)) ∧
    (ciRow (fun x => x) dataC7 (1 / 4) "ad").upper_bound -
        (ciRow (fun x => x) dataC7 (1 / 4) "ad").lower_bound ≤
      (ciRow (fun x => x) dataC7 (1 / 2) "ad").upper_bound -
        (ciRow (fun x => x) dataC7 (1 / 2) "ad").lower_bound := by
  have hmem1 : ciRow (fun x : ℝ => x) dataC7 (1 / 4) "ad" ∈
      calculate_confidence_interval (fun x => x) dataC7 (1 / 4) :=
    List.mem_map_of_mem _ (mem_groupKeys.mpr (by decide))
  have hmem2 : ciRow (fun x : ℝ => x) dataC7 (1 / 2) "ad" ∈
      calculate_confidence_interval (fun x => x) dataC7 (1 / 2) :=
    List.mem_map_of_mem _ (mem_groupKeys.mpr (by decide))
  refine ⟨⟨fun x _ y _ h => h, by norm_num, by norm_num, by norm_num,
    hmem1, hmem2⟩, ?_⟩
  exact c7_interval_width_monotone (fun x => x) (fun x _ y _ h => h) dataC7
    "ad" (1 / 4) (1 / 2) (by norm_num) (by norm_num) (by norm_num)
    _ _ hmem1 hmem2 rfl rfl

/-- C8: the three operations leave the caller's DataFrame unchanged (the
state component of each state-passing wrapper is the input itself), and
repeating any operation on that unchanged state returns an identical
result. -/
theorem c8_pure_and_idempotent (ppf : ℝ → ℝ) (sf : ℝ → ℝ → ℝ)
    (data : RecordSet) (c alpha : ℝ) :
    (calculate_conversion_rate_st data).1 = data ∧
    (calculate_confidence_interval_st ppf data c).1 = data ∧
    (perform_hypothesis_test_st sf data alpha).1 = data ∧
    (calculate_conversion_rate_st
        ((calculate_conversion_rate_st data).1)).2 =
      (calculate_conversion_rate_st data).2 ∧
    (calculate_confidence_interval_st ppf
        ((calculate_confidence_interval_st ppf data c).1) c).2 =
      (calculate_confidence_interval_st ppf data c).2 ∧
    (perform_hypothesis_test_st sf
        ((perform_hypothesis_test_st sf data alpha).1) alpha).2 =
      (perform_hypothesis_test_st sf data alpha).2 :=
  ⟨rfl, rfl, rfl, rfl, rfl, rfl⟩

/-- C9: `perform_hypothesis_test` depends only on the records labelled
`"ad"` or `"psa"` (and on `alpha`): two datasets agreeing on those records
give identical results, so records with any other label are ignored and the
compared pair of labels cannot be chosen by the caller. -/
theorem c9_only_ad_psa_matter (sf : ℝ → ℝ → ℝ) (d1 d2 : RecordSet)
    (alpha : ℝ)
    (had : d1.filter (fun r => r.group == "ad") =
      d2.filter (fun r => r.group == "ad"))
    (hpsa : d1.filter (fun r => r.group == "psa") =
      d2.filter (fun r => r.group == "psa")) :
    perform_hypothesis_test sf d1 alpha = perform_hypothesis_test sf d2 alpha := by
  unfold perform_hypothesis_test groupOutcomes
  rw [had, hpsa]

/-- Witness for C9: `dataC9b` is `dataC9a` plus an `"other"` record; the
results coincide. -/
theorem c9_only_ad_psa_matter_witness :
    (dataC9a.filter (fun r => r.group == "ad") =
      dataC9b.filter (fun r => r.group == "ad") ∧
     dataC9a.filter (fun r => r.group == "psa") =
      dataC9b.filter (fun r => r.group == "psa")) ∧
    perform_hypothesis_test (fun _ _ => 1) dataC9a (1 / 20) =
      perform_hypothesis_test (fun _ _ => 1) dataC9b (1 / 20) :=
  ⟨⟨by decide, by decide⟩,
    c9_only_ad_psa_matter (fun _ _ => 1) dataC9a dataC9b (1 / 20)
      (by decide) (by decide)⟩

/-- C10: whenever the computed p-value is NaN, `perform_hypothesis_test`
returns normally and `is_significant` (the comparison `p_value < alpha`) is
false; no exception is raised. -/
theorem c10_nan_pvalue_never_significant (sf : ℝ → ℝ → ℝ) (data : RecordSet)
    (alpha : ℝ)
    (h : (perform_hypothesis_test sf data alpha).2.1 = FV.nan) :
    ¬ (perform_hypothesis_test sf data alpha).2.2 := by
  intro hsig
  have h' : FV.ltReal (perform_hypothesis_test sf data alpha).2.1 alpha := hsig
  rw [h] at h'
  exact h'

/-- Witness for C10 at `dataC10`, whose `"ad"` group is empty. -/
theorem c10_nan_pvalue_never_significant_witness :
    (perform_hypothesis_test (fun _ _ => 1) dataC10 (1 / 20)).2.1 = FV.nan ∧
    ¬ (perform_hypothesis_test (fun _ _ => 1) dataC10 (1 / 20)).2.2 :=
  ⟨rfl, c10_nan_pvalue_never_significant (fun _ _ => 1) dataC10 (1 / 20) rfl⟩

end ABTest
